import Mathlib

/-!
# Verification of the sherlock Redfish exporter (mllnd/sherlock)

A shallow embedding, in Lean 4, of the parts of the Go source relevant to the
frozen claims: the Redfish client (`internal/redfish/client.go`), the five
metric collectors (`internal/collector/{system,sensors,power,telemetry}.go`
and the fans collector), the scrape orchestrator (`collectTarget` in
`cmd/sherlock/main.go`) and the HTTP handler for the metrics path.

Modelling conventions:
* Go `string` is Lean `String`; substring tests (`strings.Contains`,
  `strings.HasPrefix`, `strings.TrimPrefix`) are modelled by executable
  functions on the underlying character lists.
* Go `float64` values that the code manipulates (health encodings 0/1/2,
  watt and core counts converted from integers) are modelled as `ℚ`; every
  value involved is exactly representable, so no floating-point rounding is
  lost for the properties proved here.
* A Go `map[string]T` is modelled as an association list `List (String × T)`
  with an upsert operation that replaces in place or appends; iteration order
  of Go maps is unspecified, so theorems below do not depend on the order,
  except where emission lists are compared, where insertion order stands in
  for the unspecified map order.
* `sync.Mutex` is modelled explicitly where the code can re-acquire a lock on
  the same call path: Go mutexes are not reentrant, so a `Lock` while the
  lock is already held by the same (sole) goroutine of the modelled call is a
  guaranteed self-deadlock, represented by an explicit `deadlock` outcome.
* Remote Redfish responses are oracle inputs: each modelled operation takes
  the data the remote would have answered as an argument (a script of
  successive responses for the client, per-fetch `Except` values for the
  collectors).
-/

/-! ## String helpers (strings.Contains / HasPrefix / TrimPrefix) -/

/-- `hasPrefixL s pat` is true when the character list `pat` is a prefix of
`s`; executable model of Go `strings.HasPrefix`. -/
def hasPrefixL : List Char → List Char → Bool
  | _, [] => true
  | [], _ :: _ => false
  | c :: cs, p :: ps => p == c && hasPrefixL cs ps

/-- `containsSubL s pat`: `pat` occurs as a contiguous substring of `s`;
executable model of Go `strings.Contains`. -/
def containsSubL : List Char → List Char → Bool
  | [], pat => pat.isEmpty
  | c :: cs, pat => hasPrefixL (c :: cs) pat || containsSubL cs pat

/-- Model of Go `strings.Contains` on `String`. -/
def goContains (s pat : String) : Bool :=
  containsSubL s.data pat.data

/-- Model of Go `strings.TrimPrefix`: drops `pre` from the front of `s` when
it is a prefix, otherwise returns `s` unchanged. -/
def goTrimPrefix (s pre : String) : String :=
  if hasPrefixL s.data pre.data then ⟨s.data.drop pre.data.length⟩ else s

/-! ## Association-list model of Go maps -/

/-- Go map assignment `m[k] = v`: replace the binding in place if the key is
present, otherwise append a new binding. -/
def upsert {α : Type} : List (String × α) → String → α → List (String × α)
  | [], k, v => [(k, v)]
  | (k', v') :: rest, k, v =>
      if k' = k then (k, v) :: rest else (k', v') :: upsert rest k v

/-- Go map read `m[k]` as an `Option` (missing key gives `none`; call sites
that need Go's zero-value semantics use `.getD`). -/
def lookupK {α : Type} : List (String × α) → String → Option α
  | [], _ => none
  | (k', v') :: rest, k => if k' = k then some v' else lookupK rest k

/-! ## Shared health mapping

Each collector inlines the same three lines of Go:

    health := 2.0 // Default to Not Available
    if x.Status.Health != "" {
      if x.Status.Health == "OK" { health = 1.0 } else { health = 0.0 }
    }

One definition per occurrence site, so each can be diffed against its own
source location. -/

/-- CPU health mapping, `SystemCollector.Update` (system.go). -/
def cpuHealthValue (h : String) : ℚ :=
  if h ≠ "" then (if h = "OK" then 1 else 0) else 2

/-- Memory-summary health mapping, `SystemCollector.Update` (system.go). -/
def memHealthValue (h : String) : ℚ :=
  if h ≠ "" then (if h = "OK" then 1 else 0) else 2

/-- Temperature-sensor health mapping, `SensorCollector.Update` (sensors.go). -/
def tempHealthValue (h : String) : ℚ :=
  if h ≠ "" then (if h = "OK" then 1 else 0) else 2

/-- Voltage-sensor health mapping, `SensorCollector.Update` (sensors.go). -/
def voltHealthValue (h : String) : ℚ :=
  if h ≠ "" then (if h = "OK" then 1 else 0) else 2

/-- PSU health mapping, `PowerCollector.Update` and
`PowerCollector.tryAlternativeChassis` (power.go; the two loops are
token-identical). -/
def psuHealthValue (h : String) : ℚ :=
  if h ≠ "" then (if h = "OK" then 1 else 0) else 2

/-- Fan health mapping, `FansCollector.Update` (fans collector). -/
def fanHealthValue (h : String) : ℚ :=
  if h ≠ "" then (if h = "OK" then 1 else 0) else 2

/-- The mapping as the specification states it: "OK" → 1.0, any other
non-empty status → 0.0, empty/absent → 2.0. -/
def healthMapSpec (h : String) : ℚ :=
  if h = "" then 2 else if h = "OK" then 1 else 0

/-! ## Redfish client (internal/redfish/client.go)

The client owns one `sync.Mutex`. `GetMainChassis`, `GetChassisWithID`,
`GetChassis` and `Close` each take it; `reconnect` takes it again and calls
`Close`, which takes it a third time. Go mutexes are not reentrant, so a
second `Lock` on the same call path blocks forever; that outcome is the
explicit `deadlock` constructor below. Remote answers of successive
`Service.Chassis()` calls are an oracle script carried in the state. -/

/-- A non-nil chassis object; only the ID is consulted by client.go. -/
structure ChassisObj where
  id : String
deriving DecidableEq, Repr

/-- One `Service.Chassis()` answer: the returned slice (entries may be nil
pointers, hence `Option`) and the returned error (Go errors as strings). -/
structure ChassisResp where
  items : List (Option ChassisObj)
  err : Option String
deriving DecidableEq, Repr

/-- Client state: the mutex, whether `APIClient != nil`, how many times
`Logout` ran, whether a fresh `connect(config)` would succeed, and the
script of remaining `Service.Chassis()` answers. -/
structure ClientState where
  locked : Bool
  hasClient : Bool
  logoutCount : Nat
  connectOK : Bool
  responses : List ChassisResp
deriving DecidableEq, Repr

/-- One `c.Service.Chassis()` call: consume the next scripted answer. (An
exhausted script answers an error; every theorem scripts enough answers.) -/
def serviceChassis (s : ClientState) : ChassisResp × ClientState :=
  match s.responses with
  | [] => (⟨[], some "model: no scripted response"⟩, s)
  | r :: rest => (r, { s with responses := rest })

/-- `c.mutex.Unlock()`. -/
def unlockC (s : ClientState) : ClientState := { s with locked := false }

/-- `isAuthError` (client.go): substring tests on the error text. -/
def isAuthError (e : String) : Bool :=
  goContains e "401" || goContains e "unauthorized" ||
  goContains e "authentication" || goContains e "session expired"

/-- `Client.Close`: lock (`none` = self-deadlock if already held), then
`Logout` when a connection handle exists, then unlock. -/
def closeC (s : ClientState) : Option ClientState :=
  if s.locked then none
  else
    let s1 := { s with locked := true }
    let s2 := if s1.hasClient then { s1 with logoutCount := s1.logoutCount + 1 } else s1
    some (unlockC s2)

/-- `Client.reconnect`: lock, `Close()` when a handle exists, then
`connect(c.config)`; `none` = self-deadlock, otherwise the new state and
`reconnect`'s returned error. -/
def reconnectC (s : ClientState) : Option (ClientState × Option String) :=
  if s.locked then none
  else
    let s1 := { s with locked := true }
    match (if s1.hasClient then closeC s1 else some s1) with
    | none => none
    | some s2 =>
        if s2.connectOK then some (unlockC { s2 with hasClient := true }, none)
        else some (unlockC s2, some "failed to connect to Redfish API: connection refused")

/-- The selection loop of `GetMainChassis`: safety check for an empty list,
then the first non-nil entry whose ID is `"1"`. -/
def selectMainChassis (items : List (Option ChassisObj)) : Except String ChassisObj :=
  if items.length = 0 then Except.error "no chassis found"
  else
    match items.find? (fun o => match o with | some ch => ch.id == "1" | none => false) with
    | some (some ch) => Except.ok ch
    | _ => Except.error "main chassis (ID 1) not found"

/-- The selection loop of `GetChassisWithID`: safety check, then the first
non-nil entry whose ID matches the request. -/
def selectChassisWithID (id : String) (items : List (Option ChassisObj)) :
    Except String ChassisObj :=
  if items.length = 0 then Except.error "no chassis found"
  else
    match items.find? (fun o => match o with | some ch => ch.id == id | none => false) with
    | some (some ch) => Except.ok ch
    | _ => Except.error ("chassis with ID " ++ id ++ " not found")

/-- Outcome of a client call: a returned value or error with the state at
return, or a self-deadlock with the state at the moment of blocking. -/
inductive GetOut where
  | done : Except String ChassisObj → ClientState → GetOut
  | deadlock : ClientState → GetOut
deriving Repr

/-- `Client.GetMainChassis` (client.go:104-139): lock; `Service.Chassis()`;
tolerate a "failed to retrieve some items" error when the slice is
non-empty; on an auth-class error call `reconnect` (which self-deadlocks,
since the mutex is already held) and retry once; otherwise return the error;
finally select chassis ID "1". -/
def getMainChassis (s : ClientState) : GetOut :=
  if s.locked then GetOut.deadlock s
  else
    let s1 : ClientState := { s with locked := true }
    let (resp, s2) := serviceChassis s1
    match resp.err with
    | none => GetOut.done (selectMainChassis resp.items) (unlockC s2)
    | some e =>
        if goContains e "failed to retrieve some items" ∧ 0 < resp.items.length then
          GetOut.done (selectMainChassis resp.items) (unlockC s2)
        else if isAuthError e then
          match reconnectC s2 with
          | none => GetOut.deadlock s2
          | some (s3, some re) =>
              GetOut.done
                (Except.error ("failed to reconnect: " ++ re ++ " (original error: " ++ e ++ ")"))
                (unlockC s3)
          | some (s3, none) =>
              let (resp2, s4) := serviceChassis s3
              match resp2.err with
              | some e2 => GetOut.done (Except.error e2) (unlockC s4)
              | none => GetOut.done (selectMainChassis resp2.items) (unlockC s4)
        else GetOut.done (Except.error e) (unlockC s2)

/-- `Client.GetChassisWithID` (client.go:154-193): delegate to
`GetMainChassis` when the id is `"1"`, otherwise run the same pipeline and
scan for the requested id. -/
def getChassisWithID (id : String) (s : ClientState) : GetOut :=
  if id = "1" then getMainChassis s
  else if s.locked then GetOut.deadlock s
  else
    let s1 : ClientState := { s with locked := true }
    let (resp, s2) := serviceChassis s1
    match resp.err with
    | none => GetOut.done (selectChassisWithID id resp.items) (unlockC s2)
    | some e =>
        if goContains e "failed to retrieve some items" ∧ 0 < resp.items.length then
          GetOut.done (selectChassisWithID id resp.items) (unlockC s2)
        else if isAuthError e then
          match reconnectC s2 with
          | none => GetOut.deadlock s2
          | some (s3, some re) =>
              GetOut.done
                (Except.error ("failed to reconnect: " ++ re ++ " (original error: " ++ e ++ ")"))
                (unlockC s3)
          | some (s3, none) =>
              let (resp2, s4) := serviceChassis s3
              match resp2.err with
              | some e2 => GetOut.done (Except.error e2) (unlockC s4)
              | none => GetOut.done (selectChassisWithID id resp2.items) (unlockC s4)
        else GetOut.done (Except.error e) (unlockC s2)

/-! ## Collector data model

Remote sub-resources as the collectors see them. Each remote fetch appears
as an `Except String` value: the data the remote would have answered, or
the error text. Numeric Redfish fields are `ℚ` (exact for every value the
claims touch). -/

/-- One processor entry (`system.Processors()`). -/
structure ProcObj where
  id : String
  statusHealth : String
  totalCores : Int
  model : String
deriving DecidableEq, Repr

/-- One system entry (`client.Service.Systems()`), with its processor list
fetch (a separate remote call) and memory summary. -/
structure SystemObj where
  powerState : String
  processorsResp : Except String (List ProcObj)
  memStatusHealth : String
  totalMemoryGiB : ℚ
deriving Repr

/-- One temperature entry of a thermal sub-view. -/
structure TempEntry where
  name : String
  statusHealth : String
  readingCelsius : ℚ
deriving DecidableEq, Repr

/-- One voltage entry of a power sub-view. -/
structure VoltEntry where
  name : String
  statusHealth : String
  readingVolts : ℚ
deriving DecidableEq, Repr

/-- One power-supply entry of a power sub-view. -/
structure PSUEntry where
  name : String
  statusHealth : String
  powerInputWatts : ℚ
  powerOutputWatts : ℚ
deriving DecidableEq, Repr

/-- One power-control entry of a power sub-view. -/
structure PowerControlEntry where
  powerConsumedWatts : ℚ
deriving DecidableEq, Repr

/-- One fan entry of a thermal sub-view. -/
structure FanEntry where
  name : String
  statusHealth : String
  statusState : String
  reading : ℚ
deriving DecidableEq, Repr

/-- A chassis power sub-view (`chassis.Power()`). -/
structure PowerData where
  powerSupplies : List PSUEntry
  voltages : List VoltEntry
  powerControl : List PowerControlEntry
deriving DecidableEq, Repr

/-- A chassis thermal sub-view (`chassis.Thermal()`). -/
structure ThermalData where
  temperatures : List TempEntry
  fans : List FanEntry
deriving DecidableEq, Repr

/-- A resolved chassis with its two sub-view fetches. -/
structure ChassisData where
  thermal : Except String ThermalData
  power : Except String PowerData
deriving Repr

/-- Floor of a rational as an integer (executable: floor division of the
numerator by the denominator). -/
def floorQ (q : ℚ) : ℤ := Int.fdiv q.num (q.den : ℤ)

/-- Rounding to the nearest integer, halves away from zero — the behaviour
of Go's `math.Round`. -/
def roundHalfAway (q : ℚ) : ℤ :=
  if q < 0 then -floorQ (-q + 1/2) else floorQ (q + 1/2)

/-- `utils.Round(num, places)` over ℚ. -/
def utilsRound (num : ℚ) (places : Nat) : ℚ :=
  (roundHalfAway (num * 10 ^ places) : ℚ) / 10 ^ places

/-! ## System collector (internal/collector/system.go) -/

/-- One entry of `SystemCollector.readings`. -/
structure SysReading where
  powerState : ℚ
  health : ℚ
  cores : ℚ
  name : String
  model : String
  totalMemoryGiB : String
deriving DecidableEq, Repr

/-- Go zero value of `systemReading` (a map read of a missing key yields
this). -/
def zeroSysReading : SysReading :=
  { powerState := 0, health := 0, cores := 0, name := "", model := "", totalMemoryGiB := "" }

/-- Mutable state of a `SystemCollector`: its snapshot and `firstCPUID`. -/
structure SysState where
  readings : List (String × SysReading)
  firstCPUID : String
deriving DecidableEq, Repr

/-- How a `SystemCollector.Update` call ends: a normal return (the method
always returns `nil`), or a runtime panic (index out of range), each with
the collector state left behind. -/
inductive SysOut where
  | ret : SysState → SysOut
  | panicked : SysState → SysOut
deriving DecidableEq, Repr

/-- `fmt.Sprintf("%.0f", float64(x))`: the memory size formatted with no
fraction digits; modelled as rounding to an integer (half away from zero)
and printing it. No claim depends on the tie behaviour. -/
def formatGiB (q : ℚ) : String := toString (roundHalfAway q)

/-- `SystemCollector.Update` (system.go:56-135). Faithful points: the
snapshot is cleared only after `Service.Systems()` succeeds; `systems[0]`
is read without a length check (panic on an empty slice); per-CPU readings
are keyed by processor ID; afterwards the memory health/size is written
onto the entry keyed by `firstCPUID`, overwriting that entry's `health`. -/
def systemUpdate (st : SysState) (systemsResp : Except String (List SystemObj)) : SysOut :=
  match systemsResp with
  | .error _ => SysOut.ret st
  | .ok systems =>
      match systems with
      | [] => SysOut.panicked st
      | system :: _ =>
          let readings0 : List (String × SysReading) := []
          let powerState : ℚ := if system.powerState = "On" then 1 else 0
          match system.processorsResp with
          | .error _ => SysOut.ret { st with readings := readings0 }
          | .ok processors =>
              let first := match processors with
                | [] => st.firstCPUID
                | p :: _ => p.id
              let readings1 := processors.foldl (fun m cpu =>
                upsert m cpu.id
                  { powerState := powerState,
                    health := cpuHealthValue cpu.statusHealth,
                    cores := (cpu.totalCores : ℚ),
                    name := cpu.id,
                    model := cpu.model,
                    totalMemoryGiB := "" }) readings0
              let memoryHealth := memHealthValue system.memStatusHealth
              let totalGiBStr := formatGiB system.totalMemoryGiB
              if 0 < readings1.length then
                let reading := (lookupK readings1 first).getD zeroSysReading
                SysOut.ret
                  { readings := upsert readings1 first
                      ({ reading with
                         health := memoryHealth,
                         powerState := powerState,
                         totalMemoryGiB := totalGiBStr }),
                    firstCPUID := first }
              else SysOut.ret { readings := readings1, firstCPUID := first }

/-! ## Sensor collector (internal/collector/sensors.go) -/

/-- One entry of `SensorCollector.readings`. -/
structure SensorReading where
  value : ℚ
  health : ℚ
  name : String
  sensorType : String
deriving DecidableEq, Repr

/-- `SensorCollector.Update` (sensors.go:61-146): clear, resolve chassis
"1", read temperatures (stop on failure), then voltages (keep temperatures
on failure); voltage magnitudes rounded to 3 decimals. -/
def sensorUpdate (chassisResp : Except String ChassisData) :
    List (String × SensorReading) :=
  let readings : List (String × SensorReading) := []
  match chassisResp with
  | .error _ => readings
  | .ok chassis =>
      match chassis.thermal with
      | .error _ => readings
      | .ok thermal =>
          let readings := thermal.temperatures.foldl (fun m temp =>
            if temp.name = "" then m
            else upsert m temp.name
              { value := temp.readingCelsius,
                health := tempHealthValue temp.statusHealth,
                name := temp.name, sensorType := "temperature" }) readings
          match chassis.power with
          | .error _ => readings
          | .ok power =>
              power.voltages.foldl (fun m volt =>
                if volt.name = "" then m
                else upsert m volt.name
                  { value := utilsRound volt.readingVolts 3,
                    health := voltHealthValue volt.statusHealth,
                    name := volt.name, sensorType := "voltage" }) readings

/-! ## Power collector (internal/collector/power.go) -/

/-- One entry of `PowerCollector.readings`. -/
structure PsuReading where
  health : ℚ
  acPower : ℚ
  dcPower : ℚ
  name : String
deriving DecidableEq, Repr

/-- The PSU loop shared verbatim by `PowerCollector.Update` and
`PowerCollector.tryAlternativeChassis`: skip unnamed supplies, count the
named ones, key the map by `psu.Name`, label with the ordinal
`fmt.Sprintf("PSU %d", psuCount)`. -/
def processPSUs (count : Nat) (m : List (String × PsuReading)) :
    List PSUEntry → Nat × List (String × PsuReading)
  | [] => (count, m)
  | psu :: rest =>
      if psu.name = "" then processPSUs count m rest
      else
        processPSUs (count + 1)
          (upsert m psu.name
            { health := psuHealthValue psu.statusHealth,
              name := "PSU " ++ toString (count + 1),
              acPower := psu.powerInputWatts,
              dcPower := psu.powerOutputWatts }) rest

/-- One chassis of the fallback enumeration, with its power sub-fetch. -/
structure AltChassis where
  id : String
  power : Except String PowerData
deriving Repr

/-- How power-collector code ends: a return (carrying the returned `error`
and the snapshot) or a self-deadlock on the collector mutex. -/
inductive PowOut where
  | ret : Option String → List (String × PsuReading) → PowOut
  | deadlock : List (String × PsuReading) → PowOut
deriving DecidableEq, Repr

/-- The chassis loop of `PowerCollector.tryAlternativeChassis`
(power.go:118-167). The `locked` flag models the collector mutex: the loop
body runs `c.mutex.Lock()` with `defer c.mutex.Unlock()`, and the deferred
unlock only runs at function exit, so a second iteration that reaches the
lock self-deadlocks. -/
def tryAltLoop (locked : Bool) (readings : List (String × PsuReading)) :
    List AltChassis → PowOut
  | [] =>
      if readings.length = 0 then
        PowOut.ret (some "could not find any chassis with power supply information") readings
      else PowOut.ret none readings
  | ch :: rest =>
      if ch.id = "NVMeSSD.0.Group.0.StorageBackplane" then tryAltLoop locked readings rest
      else
        match ch.power with
        | .error _ => tryAltLoop locked readings rest
        | .ok power =>
            if locked then PowOut.deadlock readings
            else
              let (psuCount, readings') := processPSUs 0 readings power.powerSupplies
              if 0 < psuCount then PowOut.ret none readings'
              else tryAltLoop true readings' rest

/-- `PowerCollector.tryAlternativeChassis` (power.go:111-176): enumerate
all chassis via `client.GetChassis()` and scan them. -/
def tryAlternativeChassis (readings : List (String × PsuReading))
    (allChassisResp : Except String (List AltChassis)) : PowOut :=
  match allChassisResp with
  | .error e => PowOut.ret (some ("failed to get any chassis: " ++ e)) readings
  | .ok allChassis => tryAltLoop false readings allChassis

/-- `PowerCollector.Update` (power.go:54-109): clear the snapshot first,
try the primary chassis (`GetChassisWithID("1")`, then `chassis.Power()`;
both modelled by the nested `Except`), fall back to the alternative-chassis
scan on either failure, otherwise run the PSU loop. -/
def powerUpdate (primary : Except String (Except String PowerData))
    (allChassisResp : Except String (List AltChassis)) : PowOut :=
  let readings : List (String × PsuReading) := []
  match primary with
  | .error _ => tryAlternativeChassis readings allChassisResp
  | .ok powerResp =>
      match powerResp with
      | .error _ => tryAlternativeChassis readings allChassisResp
      | .ok power =>
          let (_, readings') := processPSUs 0 readings power.powerSupplies
          PowOut.ret none readings'

/-! ## Fans collector (internal/collector, FansCollector) -/

/-- One entry of `FansCollector.fans`. -/
structure FanMetric where
  health : ℚ
  state : ℚ
  speed : ℚ
  name : String
deriving DecidableEq, Repr

/-- `FansCollector.Update`: clear, resolve the main chassis, read its
thermal view, record every named fan (unnamed entries skipped). -/
def fansUpdate (chassisResp : Except String ChassisData) : List (String × FanMetric) :=
  let fans : List (String × FanMetric) := []
  match chassisResp with
  | .error _ => fans
  | .ok chassis =>
      match chassis.thermal with
      | .error _ => fans
      | .ok thermal =>
          thermal.fans.foldl (fun m fan =>
            if fan.name = "" then m
            else upsert m fan.name
              { health := fanHealthValue fan.statusHealth,
                state := if fan.statusState = "Enabled" then 1 else 0,
                speed := fan.reading,
                name := fan.name }) fans

/-! ## Telemetry collector (internal/collector/telemetry.go) -/

/-- `TelemetryCollector.Update`: clear the reading to 0, resolve the main
chassis and its power view, take the first power-control entry with a
strictly positive consumed-watts value. -/
def telemetryUpdate (chassisResp : Except String (Except String PowerData)) : ℚ :=
  let r : ℚ := 0
  match chassisResp with
  | .error _ => r
  | .ok powerResp =>
      match powerResp with
      | .error _ => r
      | .ok power =>
          match power.powerControl.find? (fun pc => decide (0 < pc.powerConsumedWatts)) with
          | some pc => pc.powerConsumedWatts
          | none => r

/-! ## Metric emission (`Collect` methods)

One emitted sample: descriptor name, gauge value, label values. The
per-collector `scrape_duration_seconds` gauges are omitted (wall-clock time
is not modelled); Go map iteration order is unspecified and stands as the
snapshot's insertion order here. -/

/-- One emitted metric sample. -/
structure Metric where
  descName : String
  value : ℚ
  labelValues : List String
deriving DecidableEq, Repr

/-- Go `int(f)` truncation for the cores label; every call site passes an
integral value, so the division is exact. -/
def ratTruncInt (q : ℚ) : ℤ := q.num / q.den

/-- `SystemCollector.Collect` (system.go:147-179): power state and memory
health emitted once, on the reading whose name equals `firstCPUID`; one CPU
health sample per reading. -/
def systemCollect (st : SysState) : List Metric :=
  st.readings.flatMap (fun kv =>
    let r := kv.2
    (if r.name = st.firstCPUID then
      [{ descName := "ipmi_system_power_state", value := r.powerState, labelValues := [] },
       { descName := "ipmi_memory_health", value := r.health,
         labelValues := [r.totalMemoryGiB] }]
     else []) ++
    [{ descName := "ipmi_cpu_health", value := r.health,
       labelValues := [r.name, r.model, toString (ratTruncInt r.cores)] }])

/-- `SensorCollector.Collect` (sensors.go:160-194): value and health pairs,
switched on the sensor type. -/
def sensorCollect (readings : List (String × SensorReading)) : List Metric :=
  readings.flatMap (fun kv =>
    let r := kv.2
    if r.sensorType = "temperature" then
      [{ descName := "ipmi_temperature_celsius", value := r.value, labelValues := [r.name] },
       { descName := "ipmi_temperature_health", value := r.health, labelValues := [r.name] }]
    else if r.sensorType = "voltage" then
      [{ descName := "ipmi_voltage_volts", value := r.value, labelValues := [r.name] },
       { descName := "ipmi_voltage_health", value := r.health, labelValues := [r.name] }]
    else [])

/-- `PowerCollector.Collect` (power.go:188-215). -/
def powerCollect (readings : List (String × PsuReading)) : List Metric :=
  readings.flatMap (fun kv =>
    let r := kv.2
    [{ descName := "ipmi_psu_health", value := r.health, labelValues := [r.name] },
     { descName := "ipmi_psu_ac_input_power_watts", value := r.acPower,
       labelValues := [r.name] },
     { descName := "ipmi_psu_dc_output_power_watts", value := r.dcPower,
       labelValues := [r.name] }])

/-- `FansCollector.Collect`. -/
def fansCollect (fans : List (String × FanMetric)) : List Metric :=
  fans.flatMap (fun kv =>
    let r := kv.2
    [{ descName := "ipmi_fan_health", value := r.health, labelValues := [r.name] },
     { descName := "ipmi_fan_state", value := r.state, labelValues := [r.name] },
     { descName := "ipmi_fan_speed_rpm", value := r.speed, labelValues := [r.name] }])

/-- `TelemetryCollector.Collect`: one sample when the stored reading is
strictly positive, nothing otherwise. -/
def telemetryCollect (reading : ℚ) : List Metric :=
  if 0 < reading then
    [{ descName := "ipmi_telemetry_power_consumption_watts", value := reading,
       labelValues := [] }]
  else []

/-! ## Scrape orchestrator (`SherlockCollector.collectTarget`, cmd/sherlock)

One scrape constructs five fresh collectors (their snapshots start empty),
runs the five `Update` calls in parallel goroutines, joins them all, drains
the error channel into log calls, then collects every collector in order.
The parallel fan-out is modelled as the list of the five update outcomes
(the join barrier makes the set of outcomes the only observable). Only the
power collector's `Update` can return a non-nil error (the other four
always return `nil`), so the gathered error list is determined by its
outcome. A panic in any goroutine crashes the process (`crashed`); a
deadlocked update blocks the join barrier forever (`hung`). -/

/-- The remote answers a single scrape's five collectors observe: one field
per remote fetch an `Update` performs. -/
structure Remote where
  systems : Except String (List SystemObj)
  sensorChassis : Except String ChassisData
  powerPrimary : Except String (Except String PowerData)
  powerAll : Except String (List AltChassis)
  fansChassis : Except String ChassisData
  telemetryPower : Except String (Except String PowerData)
deriving Repr

/-- What one scrape hands back to the exposition layer: emitted samples and
log-only error strings. There is no error channel to the caller. -/
structure ScrapeOut where
  emitted : List Metric
  logged : List String
deriving DecidableEq, Repr

/-- Outcome of `collectTarget`: the normal emission, a process crash, or a
scrape stuck at the join barrier. -/
inductive TargetOut where
  | emitted : ScrapeOut → TargetOut
  | crashed : TargetOut
  | hung : TargetOut
deriving DecidableEq, Repr

/-- `SherlockCollector.collectTarget` (cmd/sherlock/main.go:103-155).
`clientRes` models `getClient` (connection establishment); on its failure
the method logs and returns having emitted nothing. -/
def collectTarget (clientRes : Except String Unit) (target : String)
    (remote : Remote) : TargetOut :=
  match clientRes with
  | .error _ => TargetOut.emitted { emitted := [], logged := ["failed to connect to redfish api"] }
  | .ok _ =>
      match systemUpdate { readings := [], firstCPUID := "" } remote.systems with
      | SysOut.panicked _ => TargetOut.crashed
      | SysOut.ret sysSt =>
          let sensorReadings := sensorUpdate remote.sensorChassis
          match powerUpdate remote.powerPrimary remote.powerAll with
          | PowOut.deadlock _ => TargetOut.hung
          | PowOut.ret powErr powReadings =>
              let fansReadings := fansUpdate remote.fansChassis
              let telemetryReading := telemetryUpdate remote.telemetryPower
              let errs := match powErr with
                | some e =>
                    ["error updating collector *collector.PowerCollector for target " ++
                      target ++ ": " ++ e]
                | none => []
              TargetOut.emitted
                { emitted := systemCollect sysSt ++ sensorCollect sensorReadings ++
                    powerCollect powReadings ++ fansCollect fansReadings ++
                    telemetryCollect telemetryReading,
                  logged := errs }

/-! ## HTTP metrics handler (cmd/sherlock/main.go, the `metricsPath` handler)

The `target` query parameter is read with `r.URL.Query().Get("target")`,
which yields `""` both when the parameter is absent and when it is empty. -/

/-- Response classification: a served metrics page or a plain-text client
error (`http.Error` with `StatusBadRequest`). -/
inductive RespKind where
  | ok : RespKind
  | clientError : String → RespKind
deriving DecidableEq, Repr

/-- Observable side effects of serving one request: sessions created,
remote calls made, metric samples serialized. -/
structure ScrapeEffect where
  sessionsCreated : Nat
  remoteCalls : Nat
  metrics : List Metric
deriving DecidableEq, Repr

/-- The effects of a request rejected before any Session is touched. -/
def noEffect : ScrapeEffect := { sessionsCreated := 0, remoteCalls := 0, metrics := [] }

/-- What one request produces: the response, its effects, and the target
string the scrape actually used (none when rejected). -/
structure ReqOut where
  response : RespKind
  effect : ScrapeEffect
  usedTarget : Option String
deriving DecidableEq, Repr

/-- The two `strings.TrimPrefix` calls of the handler. -/
def stripScheme (t : String) : String :=
  goTrimPrefix (goTrimPrefix t "http://") "https://"

/-- The metrics-path handler: reject an empty/absent `target` with a 400
and the fixed explanation, touching nothing; otherwise strip a scheme
prefix and delegate the scrape (`scrapeF` stands for the registry +
`targetCollector` + serving pipeline applied to the bare hostname). -/
def handleMetrics (scrapeF : String → ScrapeEffect) (targetParam : String) : ReqOut :=
  if targetParam = "" then
    { response := RespKind.clientError
        "Error: 'target' parameter is required (e.g. ?target=bmc.example.com)",
      effect := noEffect, usedTarget := none }
  else
    let target := stripScheme targetParam
    { response := RespKind.ok, effect := scrapeF target, usedTarget := some target }

/-- The `systemReading` the CPU loop of `SystemCollector.Update` stores for
one processor (the loop body's composite literal): used to state theorems
about the loop; `pw` is the power-state value computed before the loop. -/
def mkCpuReading (pw : ℚ) (cpu : ProcObj) : SysReading :=
  { powerState := pw, health := cpuHealthValue cpu.statusHealth,
    cores := (cpu.totalCores : ℚ), name := cpu.id, model := cpu.model,
    totalMemoryGiB := "" }

/-- The names of the power-supply entries that the PSU loop does not skip
(non-empty `Name`), in list order: the keys the loop writes and the count
its ordinal labels run over. -/
def psuNames (l : List PSUEntry) : List String :=
  (l.filter (fun p => p.name != "")).map (fun p => p.name)

/-! # Theorems -/

/-! ### Selection-loop helper lemmas -/

/-- If a non-nil entry with the requested id is in the list, the selection
scan finds some non-nil entry with that id. -/
lemma chassisFind_some_of_mem (id : String) :
    ∀ (items : List (Option ChassisObj)) (ch : ChassisObj),
      some ch ∈ items → ch.id = id →
      ∃ ch', items.find? (fun o => match o with | some c => c.id == id | none => false) =
          some (some ch') ∧ ch'.id = id := by
  intro items
  induction items with
  | nil => intro ch h _; cases h
  | cons o rest ih =>
      intro ch hmem hid
      rw [List.mem_cons] at hmem
      by_cases hp : (fun o => match o with | some c => c.id == id | none => false) o = true
      · rcases o with _ | c
        · simp at hp
        · refine ⟨c, ?_, ?_⟩
          · rw [List.find?_cons_of_pos rest hp]
          · simpa using hp
      · rcases hmem with heq | hmem
        · exfalso; apply hp; rw [← heq]; simp [hid]
        · rcases ih ch hmem hid with ⟨ch', hfind, hid'⟩
          refine ⟨ch', ?_, hid'⟩
          rw [List.find?_cons_of_neg rest hp]
          exact hfind

/-- If no non-nil entry carries the requested id, the selection scan finds
nothing. -/
lemma chassisFind_none_of_absent (id : String) (items : List (Option ChassisObj))
    (h : ∀ ch : ChassisObj, some ch ∈ items → ch.id ≠ id) :
    items.find? (fun o => match o with | some c => c.id == id | none => false) = none := by
  rw [List.find?_eq_none]
  intro o hmem
  rcases o with _ | c
  · simp
  · simpa using h c hmem

/-- `selectMainChassis` returns the error of an empty list, a chassis with
id "1" when one is present, and the not-found error otherwise. -/
lemma selectMainChassis_spec :
    selectMainChassis [] = Except.error "no chassis found" ∧
    (∀ items ch, some ch ∈ items → ch.id = "1" →
      ∃ ch', selectMainChassis items = Except.ok ch' ∧ ch'.id = "1") ∧
    (∀ items, items ≠ [] → (∀ ch : ChassisObj, some ch ∈ items → ch.id ≠ "1") →
      selectMainChassis items = Except.error "main chassis (ID 1) not found") := by
  refine ⟨rfl, ?_, ?_⟩
  · intro items ch hmem hid
    rcases chassisFind_some_of_mem "1" items ch hmem hid with ⟨ch', hfind, hid'⟩
    refine ⟨ch', ?_, hid'⟩
    have hne : items.length ≠ 0 := by
      simpa [List.length_eq_zero] using List.ne_nil_of_mem hmem
    simp [selectMainChassis, hne, hfind]
  · intro items hne habs
    have hfind := chassisFind_none_of_absent "1" items habs
    have hlen : items.length ≠ 0 := by simpa [List.length_eq_zero] using hne
    simp [selectMainChassis, hlen, hfind]

/-- `selectChassisWithID` returns a chassis with the requested id when one is
present, and the per-id not-found error otherwise. -/
lemma selectChassisWithID_spec (id : String) :
    (∀ items ch, some ch ∈ items → ch.id = id →
      ∃ ch', selectChassisWithID id items = Except.ok ch' ∧ ch'.id = id) ∧
    (∀ items, items ≠ [] → (∀ ch : ChassisObj, some ch ∈ items → ch.id ≠ id) →
      selectChassisWithID id items = Except.error ("chassis with ID " ++ id ++ " not found")) := by
  constructor
  · intro items ch hmem hid
    rcases chassisFind_some_of_mem id items ch hmem hid with ⟨ch', hfind, hid'⟩
    refine ⟨ch', ?_, hid'⟩
    have hne : items.length ≠ 0 := by
      simpa [List.length_eq_zero] using List.ne_nil_of_mem hmem
    simp [selectChassisWithID, hne, hfind]
  · intro items hne habs
    have hfind := chassisFind_none_of_absent id items habs
    have hlen : items.length ≠ 0 := by simpa [List.length_eq_zero] using hne
    simp [selectChassisWithID, hlen, hfind]

/-! ## C5: the shared health mapping -/

/-- C5: the health mapping applied by the collector variants is one pure
total function: status text "OK" ↦ 1.0, any other non-empty status ↦ 0.0,
empty/absent status ↦ 2.0; on the inputs "", "OK", "Warning", "Critical",
"anything-else" it yields 2.0, 1.0, 0.0, 0.0, 0.0. Every occurrence site
(CPU and memory in the System variant, temperature and voltage in the
Sensors variant, PSU in both paths of the Power variant, fan in the Fans
variant) equals the one specification function; the Telemetry variant
consults no status text, so it applies the rule to no input. -/
theorem healthMapping_uniform_and_values :
    (∀ h, cpuHealthValue h = healthMapSpec h) ∧
    (∀ h, memHealthValue h = healthMapSpec h) ∧
    (∀ h, tempHealthValue h = healthMapSpec h) ∧
    (∀ h, voltHealthValue h = healthMapSpec h) ∧
    (∀ h, psuHealthValue h = healthMapSpec h) ∧
    (∀ h, fanHealthValue h = healthMapSpec h) ∧
    healthMapSpec "" = 2 ∧ healthMapSpec "OK" = 1 ∧ healthMapSpec "Warning" = 0 ∧
    healthMapSpec "Critical" = 0 ∧ healthMapSpec "anything-else" = 0 := by
  refine ⟨?_, ?_, ?_, ?_, ?_, ?_, rfl, rfl, rfl, rfl, rfl⟩ <;>
    · intro h
      by_cases hh : h = "" <;>
        simp [cpuHealthValue, memHealthValue, tempHealthValue, voltHealthValue,
          psuHealthValue, fanHealthValue, healthMapSpec, hh]

/-! ## C1: the reconnect-and-retry scenario -/

/-- C1: evaluation of the code at the claimed scenario. A session whose
first `Service.Chassis()` call fails with the authentication-class error
"401 unauthorized" and whose scripted second call would succeed with the
primary chassis does NOT return the resolved chassis with one logout of the
prior handle: `GetMainChassis` still holds the client mutex when it calls
`reconnect`, which locks the same non-reentrant mutex again, so the call
self-deadlocks, the retry never runs, and `Logout` runs zero times (not
once). -/
theorem getMainChassis_reconnect_scenario_deadlocks_without_logout :
    getMainChassis
        { locked := false, hasClient := true, logoutCount := 0, connectOK := true,
          responses := [⟨[], some "401 unauthorized"⟩, ⟨[some ⟨"1"⟩], none⟩] } =
      GetOut.deadlock
        { locked := true, hasClient := true, logoutCount := 0, connectOK := true,
          responses := [⟨[some ⟨"1"⟩], none⟩] } ∧
    ({ locked := true, hasClient := true, logoutCount := 0, connectOK := true,
       responses := [⟨[some ⟨"1"⟩], none⟩] } : ClientState).logoutCount = 0 ∧
    ∀ r s', getMainChassis
        { locked := false, hasClient := true, logoutCount := 0, connectOK := true,
          responses := [⟨[], some "401 unauthorized"⟩, ⟨[some ⟨"1"⟩], none⟩] } ≠
      GetOut.done r s' := by
  refine ⟨rfl, rfl, fun r s' h => ?_⟩
  have h1 : getMainChassis
      { locked := false, hasClient := true, logoutCount := 0, connectOK := true,
        responses := [⟨[], some "401 unauthorized"⟩, ⟨[some ⟨"1"⟩], none⟩] } =
      GetOut.deadlock
        { locked := true, hasClient := true, logoutCount := 0, connectOK := true,
          responses := [⟨[some ⟨"1"⟩], none⟩] } := rfl
  rw [h1] at h
  exact GetOut.noConfusion h

/-! ## C6: the chassis resolution pipeline -/

/-- C6 counterexample: the claim says `GetMainChassis` "performs one
reconnect-and-retry on an authentication-class error". On a session whose
first `Service.Chassis()` call fails with "session expired" (and whose
scripted retry would succeed), the call never returns at all: `reconnect`
re-locks the mutex `GetMainChassis` already holds and self-deadlocks. -/
theorem getMainChassis_auth_branch_counterexample :
    getMainChassis
        { locked := false, hasClient := true, logoutCount := 0, connectOK := true,
          responses := [⟨[some ⟨"7"⟩], some "session expired"⟩, ⟨[some ⟨"1"⟩], none⟩] } =
      GetOut.deadlock
        { locked := true, hasClient := true, logoutCount := 0, connectOK := true,
          responses := [⟨[some ⟨"1"⟩], none⟩] } ∧
    ∀ r s', getMainChassis
        { locked := false, hasClient := true, logoutCount := 0, connectOK := true,
          responses := [⟨[some ⟨"7"⟩], some "session expired"⟩, ⟨[some ⟨"1"⟩], none⟩] } ≠
      GetOut.done r s' := by
  refine ⟨rfl, fun r s' h => ?_⟩
  have h1 : getMainChassis
      { locked := false, hasClient := true, logoutCount := 0, connectOK := true,
        responses := [⟨[some ⟨"7"⟩], some "session expired"⟩, ⟨[some ⟨"1"⟩], none⟩] } =
      GetOut.deadlock
        { locked := true, hasClient := true, logoutCount := 0, connectOK := true,
          responses := [⟨[some ⟨"1"⟩], none⟩] } := rfl
  rw [h1] at h
  exact GetOut.noConfusion h

/-- C6 (amended): `GetMainChassis` tolerates a partial-retrieval error
whenever at least one item was returned, returns the chassis whose ID is
"1" when present, and fails with the not-found errors when the obtained
list is empty or lacks ID "1"; on an authentication-class error it attempts
a reconnect but never completes it (the reconnect re-acquires the held
non-reentrant client mutex and self-deadlocks, performing no logout); any
other fetch error is returned as is. `GetChassisWithID` delegates to
`GetMainChassis` exactly when the id is "1" and otherwise runs the same
pipeline scanning for the requested id. -/
theorem getChassis_resolution_pipeline :
    (∀ (items : List (Option ChassisObj)) rest hc lc ck,
      getMainChassis ⟨false, hc, lc, ck, ⟨items, none⟩ :: rest⟩ =
        GetOut.done (selectMainChassis items) ⟨false, hc, lc, ck, rest⟩) ∧
    (∀ (items : List (Option ChassisObj)) rest hc lc ck (e : String),
      goContains e "failed to retrieve some items" = true → 0 < items.length →
      getMainChassis ⟨false, hc, lc, ck, ⟨items, some e⟩ :: rest⟩ =
        GetOut.done (selectMainChassis items) ⟨false, hc, lc, ck, rest⟩) ∧
    (∀ (items : List (Option ChassisObj)) rest hc lc ck (e : String),
      ¬(goContains e "failed to retrieve some items" = true ∧ 0 < items.length) →
      isAuthError e = true →
      getMainChassis ⟨false, hc, lc, ck, ⟨items, some e⟩ :: rest⟩ =
        GetOut.deadlock ⟨true, hc, lc, ck, rest⟩) ∧
    (∀ (items : List (Option ChassisObj)) rest hc lc ck (e : String),
      ¬(goContains e "failed to retrieve some items" = true ∧ 0 < items.length) →
      isAuthError e = false →
      getMainChassis ⟨false, hc, lc, ck, ⟨items, some e⟩ :: rest⟩ =
        GetOut.done (Except.error e) ⟨false, hc, lc, ck, rest⟩) ∧
    (selectMainChassis [] = Except.error "no chassis found") ∧
    (∀ items ch, some ch ∈ items → ch.id = "1" →
      ∃ ch', selectMainChassis items = Except.ok ch' ∧ ch'.id = "1") ∧
    (∀ items, items ≠ [] → (∀ ch : ChassisObj, some ch ∈ items → ch.id ≠ "1") →
      selectMainChassis items = Except.error "main chassis (ID 1) not found") ∧
    (∀ s, getChassisWithID "1" s = getMainChassis s) ∧
    (∀ (id : String) (items : List (Option ChassisObj)) rest hc lc ck, id ≠ "1" →
      getChassisWithID id ⟨false, hc, lc, ck, ⟨items, none⟩ :: rest⟩ =
        GetOut.done (selectChassisWithID id items) ⟨false, hc, lc, ck, rest⟩) ∧
    (∀ (id : String) items ch, some ch ∈ items → ch.id = id →
      ∃ ch', selectChassisWithID id items = Except.ok ch' ∧ ch'.id = id) ∧
    (∀ (id : String) items, items ≠ [] →
      (∀ ch : ChassisObj, some ch ∈ items → ch.id ≠ id) →
      selectChassisWithID id items = Except.error ("chassis with ID " ++ id ++ " not found")) := by
  refine ⟨fun items rest hc lc ck => rfl, ?_, ?_, ?_,
    selectMainChassis_spec.1, selectMainChassis_spec.2.1, selectMainChassis_spec.2.2,
    fun s => rfl, ?_,
    fun id => (selectChassisWithID_spec id).1, fun id => (selectChassisWithID_spec id).2⟩
  · intro items rest hc lc ck e hp hlen
    simp only [getMainChassis, serviceChassis]
    rw [if_neg (by simp), if_pos ⟨hp, hlen⟩]
    rfl
  · intro items rest hc lc ck e hnot hauth
    simp only [getMainChassis, serviceChassis]
    rw [if_neg (by simp), if_neg hnot, if_pos hauth]
    rfl
  · intro items rest hc lc ck e hnot hfalse
    simp only [getMainChassis, serviceChassis]
    rw [if_neg (by simp), if_neg hnot, if_neg (by simp [hfalse])]
    rfl
  · intro id items rest hc lc ck hid
    simp only [getChassisWithID, serviceChassis]
    rw [if_neg hid, if_neg (by simp)]
    rfl

/-- C6 witness: the amended pipeline theorem applied at concrete inputs,
discharging each hypothesis. -/
theorem getChassis_resolution_pipeline_witness :
    (getMainChassis ⟨false, true, 0, true,
        [⟨[some ⟨"1"⟩], some "failed to retrieve some items: x"⟩]⟩ =
      GetOut.done (selectMainChassis [some ⟨"1"⟩]) ⟨false, true, 0, true, []⟩) ∧
    (getMainChassis ⟨false, true, 3, true, [⟨[], some "401"⟩]⟩ =
      GetOut.deadlock ⟨true, true, 3, true, []⟩) ∧
    (getMainChassis ⟨false, true, 0, true, [⟨[], some "connection reset"⟩]⟩ =
      GetOut.done (Except.error "connection reset") ⟨false, true, 0, true, []⟩) ∧
    (∃ ch', selectMainChassis [none, some ⟨"1"⟩] = Except.ok ch' ∧ ch'.id = "1") ∧
    (selectMainChassis [some ⟨"2"⟩] = Except.error "main chassis (ID 1) not found") ∧
    (getChassisWithID "5" ⟨false, true, 0, true, [⟨[some ⟨"5"⟩], none⟩]⟩ =
      GetOut.done (selectChassisWithID "5" [some ⟨"5"⟩]) ⟨false, true, 0, true, []⟩) ∧
    (∃ ch', selectChassisWithID "5" [some ⟨"5"⟩] = Except.ok ch' ∧ ch'.id = "5") ∧
    (selectChassisWithID "5" [some ⟨"2"⟩] =
      Except.error ("chassis with ID " ++ "5" ++ " not found")) := by
  refine ⟨?_, ?_, ?_, ?_, ?_, ?_, ?_, ?_⟩
  · exact getChassis_resolution_pipeline.2.1 [some ⟨"1"⟩] [] true 0 true
      "failed to retrieve some items: x" (by decide) (by decide)
  · exact getChassis_resolution_pipeline.2.2.1 [] [] true 3 true "401"
      (by decide) (by decide)
  · exact getChassis_resolution_pipeline.2.2.2.1 [] [] true 0 true "connection reset"
      (by decide) (by decide)
  · exact getChassis_resolution_pipeline.2.2.2.2.2.1 [none, some ⟨"1"⟩] ⟨"1"⟩
      (by simp) rfl
  · exact getChassis_resolution_pipeline.2.2.2.2.2.2.1 [some ⟨"2"⟩] (by simp)
      (by intro ch hm; simp at hm; simp [hm])
  · exact getChassis_resolution_pipeline.2.2.2.2.2.2.2.2.1 "5" [some ⟨"5"⟩] [] true 0 true
      (by decide)
  · exact getChassis_resolution_pipeline.2.2.2.2.2.2.2.2.2.1 "5" [some ⟨"5"⟩] ⟨"5"⟩
      (by simp) rfl
  · exact getChassis_resolution_pipeline.2.2.2.2.2.2.2.2.2.2 "5" [some ⟨"2"⟩] (by simp)
      (by intro ch hm; simp at hm; simp [hm])

/-! ## C4: zero systems -/

/-- C4: evaluation of the code at the claimed scenario. When the systems
list is fetched successfully but holds zero systems, `SystemCollector.Update`
does not emit nothing and return: it reads `systems[0]` without a length
check, an out-of-bounds index that panics at runtime (crashing the scrape's
goroutine and with it the process). The prior snapshot is still in place at
the panic. -/
theorem systemUpdate_zero_systems_panics :
    ∀ st : SysState, systemUpdate st (Except.ok []) = SysOut.panicked st :=
  fun _ => rfl

/-! ## C2: clear-before-fetch -/

/-- C2 counterexample: the System collector does not clear its snapshot
before the fetch. With a non-empty prior snapshot and a failing systems
fetch, the post-Update snapshot equals the prior (stale) snapshot instead
of being empty. -/
theorem systemUpdate_stale_snapshot_counterexample :
    systemUpdate { readings := [("CPU.Socket.1", zeroSysReading)], firstCPUID := "CPU.Socket.1" }
        (Except.error "connection timeout") =
      SysOut.ret { readings := [("CPU.Socket.1", zeroSysReading)],
                   firstCPUID := "CPU.Socket.1" } ∧
    ([("CPU.Socket.1", zeroSysReading)] : List (String × SysReading)) ≠ [] := by
  exact ⟨rfl, by simp⟩

/-- C2 (amended): the Sensors, Power, Fans and Telemetry collectors clear
their snapshot to empty before attempting any fetch, so their post-Update
snapshot after an initial-fetch failure is empty; the System collector
clears only after the systems-list fetch succeeds, so a failed systems-list
fetch returns with the previous snapshot unchanged (stale), while a failed
processors fetch yields an empty snapshot. (In the shipped wiring each
scrape constructs fresh collectors, so the stale snapshot is empty in situ,
but the Update contract itself is as stated here.) -/
theorem collectors_clear_semantics :
    (∀ e, sensorUpdate (Except.error e) = []) ∧
    (∀ e pw, sensorUpdate (Except.ok ⟨Except.error e, pw⟩) = []) ∧
    (∀ e e2, powerUpdate (Except.error e) (Except.error e2) =
      PowOut.ret (some ("failed to get any chassis: " ++ e2)) []) ∧
    (∀ e e2, powerUpdate (Except.ok (Except.error e)) (Except.error e2) =
      PowOut.ret (some ("failed to get any chassis: " ++ e2)) []) ∧
    (∀ e, fansUpdate (Except.error e) = []) ∧
    (∀ e pw, fansUpdate (Except.ok ⟨Except.error e, pw⟩) = []) ∧
    (∀ e, telemetryUpdate (Except.error e) = 0) ∧
    (∀ e, telemetryUpdate (Except.ok (Except.error e)) = 0) ∧
    (∀ st e, systemUpdate st (Except.error e) = SysOut.ret st) ∧
    (∀ st ps e mh gb rest,
      systemUpdate st (Except.ok
        ({ powerState := ps, processorsResp := Except.error e,
           memStatusHealth := mh, totalMemoryGiB := gb } :: rest)) =
        SysOut.ret { st with readings := [] }) :=
  ⟨fun _ => rfl, fun _ _ => rfl, fun _ _ => rfl, fun _ _ => rfl, fun _ => rfl,
   fun _ _ => rfl, fun _ => rfl, fun _ => rfl, fun _ _ => rfl,
   fun _ _ _ _ _ _ => rfl⟩

/-! ## C3: the power fallback scenario -/

/-- C3: evaluation of the code at the claimed scenario. With entry A
denylisted (skipped without its power data being consulted — the statement
holds for every `apw`), entry B succeeding with zero PSU entries and entry
C succeeding with PSUs "PSU1"/"PSU2", the fallback scan does NOT terminate
with two readings: iterating B runs `c.mutex.Lock()` with its unlock
deferred to function exit, so reaching the lock again for entry C
self-deadlocks, with the snapshot still empty. -/
theorem tryAlternativeChassis_scenario_deadlocks :
    ∀ apw : Except String PowerData,
      tryAlternativeChassis []
          (Except.ok [⟨"NVMeSSD.0.Group.0.StorageBackplane", apw⟩,
            ⟨"2", Except.ok ⟨[], [], []⟩⟩,
            ⟨"3", Except.ok ⟨[⟨"PSU1", "OK", 100, 90⟩, ⟨"PSU2", "OK", 100, 90⟩], [], []⟩⟩]) =
        PowOut.deadlock [] ∧
      ∀ err rd,
        tryAlternativeChassis []
            (Except.ok [⟨"NVMeSSD.0.Group.0.StorageBackplane", apw⟩,
              ⟨"2", Except.ok ⟨[], [], []⟩⟩,
              ⟨"3", Except.ok ⟨[⟨"PSU1", "OK", 100, 90⟩, ⟨"PSU2", "OK", 100, 90⟩], [], []⟩⟩]) ≠
          PowOut.ret err rd := by
  intro apw
  refine ⟨rfl, fun err rd h => ?_⟩
  have h1 : tryAlternativeChassis []
      (Except.ok [⟨"NVMeSSD.0.Group.0.StorageBackplane", apw⟩,
        ⟨"2", Except.ok ⟨[], [], []⟩⟩,
        ⟨"3", Except.ok ⟨[⟨"PSU1", "OK", 100, 90⟩, ⟨"PSU2", "OK", 100, 90⟩], [], []⟩⟩]) =
      PowOut.deadlock [] := rfl
  rw [h1] at h
  exact PowOut.noConfusion h

/-! ### Go-map (association list) lemmas -/

/-- Reading back the key just written. -/
lemma lookupK_upsert_self {α : Type} (m : List (String × α)) (k : String) (v : α) :
    lookupK (upsert m k v) k = some v := by
  induction m with
  | nil => simp [upsert, lookupK]
  | cons kv rest ih =>
      obtain ⟨k1, v1⟩ := kv
      by_cases h : k1 = k
      · simp [upsert, h, lookupK]
      · simp [upsert, h, lookupK, ih]

/-- Writing one key leaves every other key's binding unchanged. -/
lemma lookupK_upsert_ne {α : Type} (m : List (String × α)) (k : String) (v : α)
    (k' : String) (h : k' ≠ k) : lookupK (upsert m k v) k' = lookupK m k' := by
  induction m with
  | nil =>
      simp only [upsert, lookupK]
      rw [if_neg (fun he => h he.symm)]
  | cons kv rest ih =>
      obtain ⟨k1, v1⟩ := kv
      by_cases h1 : k1 = k
      · subst h1
        simp only [upsert, if_pos rfl, lookupK]
        rw [if_neg (fun he => h he.symm), if_neg (fun he => h he.symm)]
      · simp only [upsert, if_neg h1, lookupK]
        by_cases h2 : k1 = k'
        · simp [h2]
        · simp [h2, ih]

/-- A successful read implies a non-empty map. -/
lemma lookupK_some_pos {α : Type} (m : List (String × α)) (k : String) (v : α)
    (h : lookupK m k = some v) : 0 < m.length := by
  cases m with
  | nil => simp [lookupK] at h
  | cons kv rest => simp

/-- Folding upserts over entries none of which carries key `k` leaves `k`'s
binding unchanged. -/
lemma lookupK_foldl_upsert_absent {α β : Type} (f : α → String) (g : α → β) :
    ∀ (l : List α) (m0 : List (String × β)) (k : String), (∀ x ∈ l, f x ≠ k) →
      lookupK (l.foldl (fun m x => upsert m (f x) (g x)) m0) k = lookupK m0 k := by
  intro l
  induction l with
  | nil => intro m0 k _; rfl
  | cons x xs ih =>
      intro m0 k h
      simp only [List.foldl_cons]
      rw [ih _ k (fun y hy => h y (List.mem_cons_of_mem x hy))]
      exact lookupK_upsert_ne _ _ _ _ (fun he => h x (List.mem_cons_self x xs) he.symm)

/-- With pairwise distinct keys, folding upserts stores each entry's own
value under its own key. -/
lemma lookupK_foldl_upsert_mem {α β : Type} (f : α → String) (g : α → β) :
    ∀ (l : List α) (m0 : List (String × β)) (x : α), x ∈ l → (l.map f).Nodup →
      lookupK (l.foldl (fun m y => upsert m (f y) (g y)) m0) (f x) = some (g x) := by
  intro l
  induction l with
  | nil => intro m0 x hx; cases hx
  | cons y ys ih =>
      intro m0 x hx hnd
      simp only [List.map_cons, List.nodup_cons] at hnd
      obtain ⟨hy_not, hnd'⟩ := hnd
      rw [List.mem_cons] at hx
      simp only [List.foldl_cons]
      rcases hx with rfl | hx
      · rw [lookupK_foldl_upsert_absent f g ys _ (f x) ?_]
        · exact lookupK_upsert_self _ _ _
        · intro z hz he
          exact hy_not (he ▸ List.mem_map_of_mem f hz)
      · exact ih _ x hx hnd'

/-! ## C9: memory health folded onto the first CPU's entry -/

/-- C9 counterexample: one processor "CPU.1" whose own status is "Critical"
(CPU health 0.0) on a system whose memory summary is "OK" (memory health
1.0). The snapshot entry keyed by the first processor ends with
`health = 1.0`: the memory health *replaces* the processor's own CPU-health
value, where the claim says the folding happens "without replacing" it. -/
theorem systemUpdate_first_cpu_health_replaced_counterexample :
    systemUpdate { readings := [], firstCPUID := "" }
        (Except.ok [{ powerState := "On",
                      processorsResp := Except.ok
                        [{ id := "CPU.1", statusHealth := "Critical",
                           totalCores := 8, model := "Xeon" }],
                      memStatusHealth := "OK", totalMemoryGiB := 256 }]) =
      SysOut.ret { readings := [("CPU.1",
                     { powerState := if ("On" : String) = "On" then 1 else 0,
                       health := memHealthValue "OK", cores := ((8 : Int) : ℚ),
                       name := "CPU.1", model := "Xeon",
                       totalMemoryGiB := formatGiB 256 })],
                   firstCPUID := "CPU.1" } ∧
    memHealthValue "OK" = 1 ∧ cpuHealthValue "Critical" = 0 ∧
    memHealthValue "OK" ≠ cpuHealthValue "Critical" :=
  ⟨rfl, by simp [memHealthValue], by simp [cpuHealthValue],
   by simp [memHealthValue, cpuHealthValue]⟩

/-- C9 (amended): after an Update that fetched a non-empty processor list
(with pairwise distinct processor IDs), every non-first processor's
snapshot entry carries the health mapped from its own status text together
with its model and core count, and the memory subsystem's health and
formatted total-GiB size are folded onto the entry keyed by the first
processor's identifier (co-located, not a separate key) — overwriting that
entry's `health` field, so the first processor's own CPU-health value is
replaced by the memory health, while its name, model and core count remain
its own. -/
theorem systemUpdate_memory_folding :
    ∀ (st : SysState) (ps mh : String) (gb : ℚ) (p0 : ProcObj) (rest : List ProcObj),
      ((p0 :: rest).map (fun c => c.id)).Nodup →
      ∃ final,
        systemUpdate st (Except.ok
            [{ powerState := ps, processorsResp := Except.ok (p0 :: rest),
               memStatusHealth := mh, totalMemoryGiB := gb }]) = SysOut.ret final ∧
        final.firstCPUID = p0.id ∧
        lookupK final.readings p0.id = some
          { powerState := (if ps = "On" then 1 else 0), health := memHealthValue mh,
            cores := (p0.totalCores : ℚ), name := p0.id, model := p0.model,
            totalMemoryGiB := formatGiB gb } ∧
        ∀ q ∈ rest, lookupK final.readings q.id =
          some (mkCpuReading (if ps = "On" then 1 else 0) q) := by
  intro st ps mh gb p0 rest hnd
  have hfold := lookupK_foldl_upsert_mem (f := fun c => c.id)
    (g := fun cpu => mkCpuReading (if ps = "On" then 1 else 0) cpu)
    (p0 :: rest) [] p0 (List.mem_cons_self p0 rest) hnd
  have hlen := lookupK_some_pos _ _ _ hfold
  have hnotin : ∀ q ∈ rest, q.id ≠ p0.id := by
    simp only [List.map_cons, List.nodup_cons] at hnd
    intro q hq he
    exact hnd.1 (he ▸ List.mem_map_of_mem (fun c => c.id) hq)
  have hconv : ((p0 :: rest).foldl (fun m cpu => upsert m cpu.id
      { powerState := (if ps = "On" then 1 else 0),
        health := cpuHealthValue cpu.statusHealth,
        cores := (cpu.totalCores : ℚ), name := cpu.id, model := cpu.model,
        totalMemoryGiB := "" }) ([] : List (String × SysReading))) =
      ((p0 :: rest).foldl (fun m cpu => upsert m cpu.id
        (mkCpuReading (if ps = "On" then 1 else 0) cpu)) []) := rfl
  have hfold' : lookupK ((p0 :: rest).foldl (fun m cpu => upsert m cpu.id
      { powerState := (if ps = "On" then 1 else 0),
        health := cpuHealthValue cpu.statusHealth,
        cores := (cpu.totalCores : ℚ), name := cpu.id, model := cpu.model,
        totalMemoryGiB := "" }) ([] : List (String × SysReading))) p0.id =
      some (mkCpuReading (if ps = "On" then 1 else 0) p0) := by
    rw [hconv]; exact hfold
  have hlen' : 0 < ((p0 :: rest).foldl (fun m cpu => upsert m cpu.id
      { powerState := (if ps = "On" then 1 else 0),
        health := cpuHealthValue cpu.statusHealth,
        cores := (cpu.totalCores : ℚ), name := cpu.id, model := cpu.model,
        totalMemoryGiB := "" }) ([] : List (String × SysReading))).length := by
    rw [hconv]; exact hlen
  have hupdate : systemUpdate st (Except.ok
      [{ powerState := ps, processorsResp := Except.ok (p0 :: rest),
         memStatusHealth := mh, totalMemoryGiB := gb }]) =
      SysOut.ret
        { readings := upsert ((p0 :: rest).foldl (fun m cpu => upsert m cpu.id
            { powerState := (if ps = "On" then 1 else 0),
              health := cpuHealthValue cpu.statusHealth,
              cores := (cpu.totalCores : ℚ), name := cpu.id, model := cpu.model,
              totalMemoryGiB := "" }) ([] : List (String × SysReading))) p0.id
            ({ (lookupK ((p0 :: rest).foldl (fun m cpu => upsert m cpu.id
                { powerState := (if ps = "On" then 1 else 0),
                  health := cpuHealthValue cpu.statusHealth,
                  cores := (cpu.totalCores : ℚ), name := cpu.id, model := cpu.model,
                  totalMemoryGiB := "" }) ([] : List (String × SysReading))) p0.id).getD
                  zeroSysReading with
               health := memHealthValue mh,
               powerState := (if ps = "On" then 1 else 0),
               totalMemoryGiB := formatGiB gb }),
          firstCPUID := p0.id } := by
    simp only [systemUpdate]
    rw [if_pos hlen']
  refine ⟨_, hupdate, rfl, ?_, ?_⟩
  · rw [lookupK_upsert_self, hfold']
    rfl
  · intro q hq
    rw [lookupK_upsert_ne _ _ _ _ (hnotin q hq), hconv]
    exact lookupK_foldl_upsert_mem (f := fun c => c.id)
      (g := fun cpu => mkCpuReading (if ps = "On" then 1 else 0) cpu)
      (p0 :: rest) [] q (List.mem_cons_of_mem p0 hq) hnd

/-- C9 witness: the amended folding theorem at a concrete two-processor
system, its hypothesis discharged there. -/
theorem systemUpdate_memory_folding_witness :
    ∃ final,
      systemUpdate { readings := [], firstCPUID := "" } (Except.ok
          [{ powerState := "On",
             processorsResp := Except.ok
               [{ id := "CPU.1", statusHealth := "Critical", totalCores := 8, model := "X" },
                { id := "CPU.2", statusHealth := "OK", totalCores := 8, model := "X" }],
             memStatusHealth := "OK", totalMemoryGiB := 64 }]) = SysOut.ret final ∧
      final.firstCPUID =
        ({ id := "CPU.1", statusHealth := "Critical", totalCores := 8, model := "X" } : ProcObj).id ∧
      lookupK final.readings
          ({ id := "CPU.1", statusHealth := "Critical", totalCores := 8, model := "X" } : ProcObj).id =
        some
          { powerState := (if ("On" : String) = "On" then 1 else 0),
            health := memHealthValue "OK",
            cores := ((({ id := "CPU.1", statusHealth := "Critical", totalCores := 8, model := "X" } : ProcObj).totalCores : Int) : ℚ),
            name := ({ id := "CPU.1", statusHealth := "Critical", totalCores := 8, model := "X" } : ProcObj).id,
            model := ({ id := "CPU.1", statusHealth := "Critical", totalCores := 8, model := "X" } : ProcObj).model,
            totalMemoryGiB := formatGiB 64 } ∧
      ∀ q ∈ [({ id := "CPU.2", statusHealth := "OK", totalCores := 8, model := "X" } : ProcObj)],
        lookupK final.readings q.id =
          some (mkCpuReading (if ("On" : String) = "On" then 1 else 0) q) :=
  systemUpdate_memory_folding { readings := [], firstCPUID := "" } "On" "OK" 64
    { id := "CPU.1", statusHealth := "Critical", totalCores := 8, model := "X" }
    [{ id := "CPU.2", statusHealth := "OK", totalCores := 8, model := "X" }]
    (by simp)

/-! ### PSU-loop lemmas -/

/-- `psuNames` drops an unnamed head. -/
lemma psuNames_cons_empty (p : PSUEntry) (l : List PSUEntry) (h : p.name = "") :
    psuNames (p :: l) = psuNames l := by
  simp [psuNames, List.filter_cons, h]

/-- `psuNames` keeps a named head. -/
lemma psuNames_cons_named (p : PSUEntry) (l : List PSUEntry) (h : ¬p.name = "") :
    psuNames (p :: l) = p.name :: psuNames l := by
  simp [psuNames, List.filter_cons, h]

/-- The PSU loop over a concatenation runs the two halves in sequence. -/
lemma processPSUs_append : ∀ (l1 l2 : List PSUEntry) (c : Nat)
    (m : List (String × PsuReading)),
    processPSUs c m (l1 ++ l2) =
      processPSUs (processPSUs c m l1).1 (processPSUs c m l1).2 l2 := by
  intro l1
  induction l1 with
  | nil => intro l2 c m; rfl
  | cons p l1 ih =>
      intro l2 c m
      by_cases h : p.name = "" <;> simp [processPSUs, h, ih]

/-- The loop's final counter is the entry counter plus the named count. -/
lemma processPSUs_count : ∀ (l : List PSUEntry) (c : Nat)
    (m : List (String × PsuReading)),
    (processPSUs c m l).1 = c + (psuNames l).length := by
  intro l
  induction l with
  | nil => intro c m; simp [processPSUs, psuNames]
  | cons p l ih =>
      intro c m
      by_cases h : p.name = ""
      · rw [psuNames_cons_empty p l h]
        simp [processPSUs, h, ih]
      · rw [psuNames_cons_named p l h]
        simp only [processPSUs, if_neg h, ih]
        simp [Nat.add_comm, Nat.add_assoc, Nat.add_left_comm]

/-- Entries whose names all differ from `k` leave `k`'s binding unchanged. -/
lemma processPSUs_lookup_absent : ∀ (l : List PSUEntry) (c : Nat)
    (m : List (String × PsuReading)) (k : String), (∀ e ∈ l, e.name ≠ k) →
    lookupK (processPSUs c m l).2 k = lookupK m k := by
  intro l
  induction l with
  | nil => intro c m k _; rfl
  | cons p l ih =>
      intro c m k h
      by_cases hp : p.name = ""
      · simp only [processPSUs, if_pos hp]
        exact ih _ _ k (fun e he => h e (List.mem_cons_of_mem p he))
      · simp only [processPSUs, if_neg hp]
        rw [ih _ _ k (fun e he => h e (List.mem_cons_of_mem p he))]
        exact lookupK_upsert_ne _ _ _ _
          (fun he => h p (List.mem_cons_self p l) he.symm)

/-- Key membership after an upsert. -/
lemma mem_keys_upsert {α : Type} (m : List (String × α)) (k : String) (v : α)
    (k' : String) :
    (k' ∈ (upsert m k v).map Prod.fst) ↔ k' ∈ m.map Prod.fst ∨ k' = k := by
  induction m with
  | nil => simp [upsert]
  | cons kv rest ih =>
      obtain ⟨k1, v1⟩ := kv
      by_cases h : k1 = k
      · subst h
        simp [upsert]
        tauto
      · simp [upsert, h, ih]
        tauto

/-- Upserting preserves key distinctness. -/
lemma nodup_keys_upsert {α : Type} (m : List (String × α)) (k : String) (v : α)
    (h : (m.map Prod.fst).Nodup) : ((upsert m k v).map Prod.fst).Nodup := by
  induction m with
  | nil => simp [upsert]
  | cons kv rest ih =>
      obtain ⟨k1, v1⟩ := kv
      simp only [List.map_cons, List.nodup_cons] at h
      by_cases h1 : k1 = k
      · subst h1
        have hu : upsert ((k1, v1) :: rest) k1 v = (k1, v) :: rest := by simp [upsert]
        rw [hu]
        simp only [List.map_cons, List.nodup_cons]
        exact ⟨h.1, h.2⟩
      · simp only [upsert, if_neg h1, List.map_cons, List.nodup_cons]
        refine ⟨?_, ih h.2⟩
        rw [mem_keys_upsert]
        rintro (hc | hc)
        · exact h.1 hc
        · exact h1 hc

/-- The keys of the loop's map are the starting keys plus the named PSU
names. -/
lemma processPSUs_keys_mem : ∀ (l : List PSUEntry) (c : Nat)
    (m : List (String × PsuReading)) (k : String),
    (k ∈ (processPSUs c m l).2.map Prod.fst) ↔
      k ∈ m.map Prod.fst ∨ k ∈ psuNames l := by
  intro l
  induction l with
  | nil => intro c m k; simp [processPSUs, psuNames]
  | cons p l ih =>
      intro c m k
      by_cases hp : p.name = ""
      · rw [psuNames_cons_empty p l hp]
        simp only [processPSUs, if_pos hp]
        exact ih _ _ k
      · rw [psuNames_cons_named p l hp]
        simp only [processPSUs, if_neg hp]
        rw [ih _ _ k, mem_keys_upsert]
        simp [List.mem_cons]
        tauto

/-- The loop preserves key distinctness. -/
lemma processPSUs_keys_nodup : ∀ (l : List PSUEntry) (c : Nat)
    (m : List (String × PsuReading)),
    (m.map Prod.fst).Nodup → ((processPSUs c m l).2.map Prod.fst).Nodup := by
  intro l
  induction l with
  | nil => intro c m h; exact h
  | cons p l ih =>
      intro c m h
      by_cases hp : p.name = ""
      · simp only [processPSUs, if_pos hp]
        exact ih _ _ h
      · simp only [processPSUs, if_neg hp]
        exact ih _ _ (nodup_keys_upsert _ _ _ h)

/-- Snapshot size = number of distinct non-empty PSU names. -/
lemma processPSUs_length (l : List PSUEntry) :
    (processPSUs 0 [] l).2.length = (psuNames l).toFinset.card := by
  have hnodup := processPSUs_keys_nodup l 0 [] (by simp)
  have hlen : (processPSUs 0 [] l).2.length =
      ((processPSUs 0 [] l).2.map Prod.fst).length := by
    rw [List.length_map]
  rw [hlen, ← List.toFinset_card_of_nodup hnodup]
  congr 1
  ext k
  simp only [List.mem_toFinset]
  rw [processPSUs_keys_mem l 0 [] k]
  simp

/-! ## C10: snapshot keyed by remote Name, labelled by ordinal -/

/-- C10: the power snapshot is keyed by each supply's remote `Name` while
the stored label is the synthesized encounter-order ordinal "PSU n".
Consequences, all proved over the shared PSU loop: (a) when a later entry
shares a non-empty `Name` with an earlier one, the snapshot binding for
that name is the last such entry's reading, labelled with the last entry's
ordinal (the later entry overwrites the earlier); (b) the snapshot size is
the number of distinct non-empty names; (c) with duplicated non-empty
names the snapshot holds strictly fewer readings than the count of named
entries; (d) two entries both named "A" leave a single reading whose label
is "PSU 2" with no "PSU 1"; (e) an entry with an empty name is skipped and
does not advance the ordinal. -/
theorem powerSnapshot_name_keys_ordinal_labels :
    (∀ (l1 : List PSUEntry) (e : PSUEntry) (l2 : List PSUEntry), ¬e.name = "" →
      (∀ e' ∈ l2, e'.name ≠ e.name) →
      lookupK (processPSUs 0 [] (l1 ++ e :: l2)).2 e.name =
        some { health := psuHealthValue e.statusHealth,
               name := "PSU " ++ toString ((psuNames l1).length + 1),
               acPower := e.powerInputWatts, dcPower := e.powerOutputWatts }) ∧
    (∀ l : List PSUEntry,
      (processPSUs 0 [] l).2.length = (psuNames l).toFinset.card) ∧
    (∀ l : List PSUEntry, ¬(psuNames l).Nodup →
      (processPSUs 0 [] l).2.length < (psuNames l).length) ∧
    ((processPSUs 0 []
        [⟨"A", "OK", 5, 4⟩, ⟨"A", "OK", 7, 6⟩]).2.map (fun kv => kv.2.name) = ["PSU 2"]) ∧
    (∀ (c : Nat) (m : List (String × PsuReading)) (l : List PSUEntry)
      (sh : String) (ac dc : ℚ),
      processPSUs c m ({ name := "", statusHealth := sh, powerInputWatts := ac,
                         powerOutputWatts := dc } :: l) = processPSUs c m l) := by
  refine ⟨?_, processPSUs_length, ?_, rfl, fun c m l sh ac dc => rfl⟩
  · intro l1 e l2 hne habs
    rw [processPSUs_append]
    simp only [processPSUs, if_neg hne]
    rw [processPSUs_lookup_absent l2 _ _ _ habs, lookupK_upsert_self,
      processPSUs_count]
    simp
  · intro l hnd
    rw [processPSUs_length, List.card_toFinset]
    have hsub := List.dedup_sublist (psuNames l)
    rcases lt_or_eq_of_le hsub.length_le with h | h
    · exact h
    · exact absurd (by rw [← hsub.eq_of_length h]; exact List.nodup_dedup _) hnd

/-- C10 witness: the keyed/labelled theorem applied at concrete PSU lists,
discharging each hypothesis. -/
theorem powerSnapshot_name_keys_ordinal_labels_witness :
    (lookupK (processPSUs 0 []
        ([⟨"B", "OK", 1, 1⟩] ++ (⟨"A", "Warning", 2, 3⟩ : PSUEntry) ::
          [⟨"C", "OK", 4, 5⟩])).2 (⟨"A", "Warning", 2, 3⟩ : PSUEntry).name =
      some { health := psuHealthValue (⟨"A", "Warning", 2, 3⟩ : PSUEntry).statusHealth,
             name := "PSU " ++ toString ((psuNames [⟨"B", "OK", 1, 1⟩]).length + 1),
             acPower := (⟨"A", "Warning", 2, 3⟩ : PSUEntry).powerInputWatts,
             dcPower := (⟨"A", "Warning", 2, 3⟩ : PSUEntry).powerOutputWatts }) ∧
    ((processPSUs 0 [] [⟨"A", "OK", 5, 4⟩, ⟨"A", "OK", 7, 6⟩]).2.length <
      (psuNames [⟨"A", "OK", 5, 4⟩, ⟨"A", "OK", 7, 6⟩]).length) := by
  constructor
  · exact powerSnapshot_name_keys_ordinal_labels.1 [⟨"B", "OK", 1, 1⟩]
      ⟨"A", "Warning", 2, 3⟩ [⟨"C", "OK", 4, 5⟩] (by decide)
      (by intro e' he'; rw [List.mem_singleton] at he'; subst he'; decide)
  · exact powerSnapshot_name_keys_ordinal_labels.2.2.1
      [⟨"A", "OK", 5, 4⟩, ⟨"A", "OK", 7, 6⟩] (by decide)

/-! ## C7: no collector error surfaces to the scrape caller -/

/-- C7: the scrape path surfaces no collector error. When connection
establishment fails, `collectTarget` logs and emits nothing. When the five
parallel updates all complete, whatever errors they produced (only the
power collector's Update can return one; the other four always return nil)
end up in the log-only list, and the emission is always the concatenation
of all five collectors' Collect outputs over their post-Update snapshots —
even when that concatenation is empty. -/
theorem collectTarget_never_surfaces_errors :
    (∀ (e target : String) (remote : Remote),
      collectTarget (Except.error e) target remote =
        TargetOut.emitted { emitted := [], logged := ["failed to connect to redfish api"] }) ∧
    (∀ (target : String) (remote : Remote) (out : ScrapeOut),
      collectTarget (Except.ok ()) target remote = TargetOut.emitted out →
      ∃ sysSt powErr powReadings,
        systemUpdate { readings := [], firstCPUID := "" } remote.systems =
          SysOut.ret sysSt ∧
        powerUpdate remote.powerPrimary remote.powerAll =
          PowOut.ret powErr powReadings ∧
        out.emitted = systemCollect sysSt ++
          sensorCollect (sensorUpdate remote.sensorChassis) ++
          powerCollect powReadings ++ fansCollect (fansUpdate remote.fansChassis) ++
          telemetryCollect (telemetryUpdate remote.telemetryPower) ∧
        out.logged = (match powErr with
          | some e => ["error updating collector *collector.PowerCollector for target " ++
              target ++ ": " ++ e]
          | none => [])) := by
  constructor
  · intro e target remote; rfl
  · intro target remote out h
    cases hsys : systemUpdate { readings := [], firstCPUID := "" } remote.systems with
    | panicked st =>
        simp only [collectTarget, hsys] at h
        exact TargetOut.noConfusion h
    | ret sysSt =>
        cases hpow : powerUpdate remote.powerPrimary remote.powerAll with
        | deadlock rd =>
            simp only [collectTarget, hsys, hpow] at h
            exact TargetOut.noConfusion h
        | ret powErr powReadings =>
            simp only [collectTarget, hsys, hpow] at h
            injection h with h2
            subst h2
            exact ⟨sysSt, powErr, powReadings, rfl, rfl, rfl, rfl⟩

/-- C7 witness: the no-surfacing theorem applied to a scrape whose every
remote fetch fails, discharging the completion hypothesis; the caller still
receives a result whose emission is the (empty) concatenation and whose
only record of failure is the log list. -/
theorem collectTarget_never_surfaces_errors_witness :
    ∃ sysSt powErr powReadings,
      systemUpdate { readings := [], firstCPUID := "" }
          (Remote.mk (Except.error "a") (Except.error "b") (Except.error "c")
            (Except.error "d") (Except.error "e") (Except.error "f")).systems =
        SysOut.ret sysSt ∧
      powerUpdate
          (Remote.mk (Except.error "a") (Except.error "b") (Except.error "c")
            (Except.error "d") (Except.error "e") (Except.error "f")).powerPrimary
          (Remote.mk (Except.error "a") (Except.error "b") (Except.error "c")
            (Except.error "d") (Except.error "e") (Except.error "f")).powerAll =
        PowOut.ret powErr powReadings ∧
      ({ emitted := [],
         logged := ["error updating collector *collector.PowerCollector for target t: failed to get any chassis: d"] } : ScrapeOut).emitted =
        systemCollect sysSt ++
          sensorCollect (sensorUpdate
            (Remote.mk (Except.error "a") (Except.error "b") (Except.error "c")
              (Except.error "d") (Except.error "e") (Except.error "f")).sensorChassis) ++
          powerCollect powReadings ++
          fansCollect (fansUpdate
            (Remote.mk (Except.error "a") (Except.error "b") (Except.error "c")
              (Except.error "d") (Except.error "e") (Except.error "f")).fansChassis) ++
          telemetryCollect (telemetryUpdate
            (Remote.mk (Except.error "a") (Except.error "b") (Except.error "c")
              (Except.error "d") (Except.error "e") (Except.error "f")).telemetryPower) ∧
      ({ emitted := [],
         logged := ["error updating collector *collector.PowerCollector for target t: failed to get any chassis: d"] } : ScrapeOut).logged =
        (match powErr with
          | some e => ["error updating collector *collector.PowerCollector for target t: " ++ e]
          | none => []) :=
  collectTarget_never_surfaces_errors.2 "t"
    (Remote.mk (Except.error "a") (Except.error "b") (Except.error "c")
      (Except.error "d") (Except.error "e") (Except.error "f"))
    { emitted := [],
      logged := ["error updating collector *collector.PowerCollector for target t: failed to get any chassis: d"] }
    rfl

/-! ## C8: the metrics handler's target validation and scheme stripping -/

/-- A pattern is a prefix of itself followed by anything. -/
lemma hasPrefixL_append (p r : List Char) : hasPrefixL (p ++ r) p = true := by
  induction p with
  | nil => cases r <;> rfl
  | cons c cs ih => simp [hasPrefixL, ih]

/-- `strings.TrimPrefix` removes an actual prefix. -/
lemma goTrimPrefix_append (p r : String) : goTrimPrefix (p ++ r) p = r := by
  unfold goTrimPrefix
  rw [String.data_append, if_pos (hasPrefixL_append p.data r.data), List.drop_left]

/-- `strings.TrimPrefix` leaves a string without the prefix unchanged. -/
lemma goTrimPrefix_unchanged (s pre : String)
    (h : hasPrefixL s.data pre.data = false) : goTrimPrefix s pre = s := by
  unfold goTrimPrefix
  rw [h]
  simp

/-- "https://…" does not start with "http://". -/
lemma hasPrefixL_https_not_http (rd : List Char) :
    hasPrefixL ("https://".data ++ rd) "http://".data = false := by
  show hasPrefixL ('h' :: 't' :: 't' :: 'p' :: 's' :: ':' :: '/' :: '/' :: rd)
    ('h' :: 't' :: 't' :: 'p' :: ':' :: '/' :: '/' :: []) = false
  simp [hasPrefixL]

/-- A scheme-prefixed target is never the empty string. -/
lemma scheme_append_ne_empty (p r : String) (hp : p.data ≠ []) : p ++ r ≠ "" := by
  intro h
  have hd := congrArg String.data h
  rw [String.data_append] at hd
  have : p.data = [] := by
    cases hpd : p.data with
    | nil => rfl
    | cons c cs => rw [hpd] at hd; simp at hd
  exact hp this

/-- C8: a request whose `target` parameter is absent or empty (Go's
`Query().Get` yields `""` for both) is rejected with the fixed client-error
text, creating no session, making no remote call and emitting no metric;
a request with a target present has any `http://` or `https://` prefix
stripped before the target is used, and a target with neither prefix is
used verbatim. -/
theorem handleMetrics_validation_and_stripping :
    (∀ scrapeF, handleMetrics scrapeF "" =
      { response := RespKind.clientError
          "Error: 'target' parameter is required (e.g. ?target=bmc.example.com)",
        effect := noEffect, usedTarget := none }) ∧
    (noEffect = { sessionsCreated := 0, remoteCalls := 0, metrics := [] }) ∧
    (∀ (scrapeF : String → ScrapeEffect) (r : String),
      (handleMetrics scrapeF ("http://" ++ r)).usedTarget =
        some (goTrimPrefix r "https://") ∧
      (handleMetrics scrapeF ("http://" ++ r)).effect =
        scrapeF (goTrimPrefix r "https://")) ∧
    (∀ (scrapeF : String → ScrapeEffect) (r : String),
      (handleMetrics scrapeF ("https://" ++ r)).usedTarget = some r ∧
      (handleMetrics scrapeF ("https://" ++ r)).effect = scrapeF r) ∧
    (∀ (scrapeF : String → ScrapeEffect) (t : String), t ≠ "" →
      hasPrefixL t.data "http://".data = false →
      hasPrefixL t.data "https://".data = false →
      (handleMetrics scrapeF t).usedTarget = some t ∧
      (handleMetrics scrapeF t).effect = scrapeF t) := by
  refine ⟨fun scrapeF => rfl, rfl, ?_, ?_, ?_⟩
  · intro scrapeF r
    have hne : ("http://" ++ r : String) ≠ "" :=
      scheme_append_ne_empty "http://" r (by decide)
    simp only [handleMetrics, if_neg hne, stripScheme]
    rw [goTrimPrefix_append]
    exact ⟨rfl, rfl⟩
  · intro scrapeF r
    have hne : ("https://" ++ r : String) ≠ "" :=
      scheme_append_ne_empty "https://" r (by decide)
    have hnp : hasPrefixL ("https://" ++ r : String).data "http://".data = false := by
      rw [String.data_append]
      exact hasPrefixL_https_not_http r.data
    simp only [handleMetrics, if_neg hne, stripScheme]
    rw [goTrimPrefix_unchanged _ _ hnp, goTrimPrefix_append]
    exact ⟨rfl, rfl⟩
  · intro scrapeF t hne h1 h2
    simp only [handleMetrics, if_neg hne, stripScheme]
    rw [goTrimPrefix_unchanged _ _ h1, goTrimPrefix_unchanged _ _ h2]
    exact ⟨rfl, rfl⟩

/-- C8 witness: the validation/stripping theorem applied at concrete
requests, discharging each hypothesis. -/
theorem handleMetrics_validation_and_stripping_witness :
    ((handleMetrics (fun _ => noEffect) "bmc.example.com").usedTarget =
        some "bmc.example.com" ∧
      (handleMetrics (fun _ => noEffect) "bmc.example.com").effect =
        (fun _ => noEffect) "bmc.example.com") ∧
    (handleMetrics (fun _ => noEffect) "" =
      { response := RespKind.clientError
          "Error: 'target' parameter is required (e.g. ?target=bmc.example.com)",
        effect := noEffect, usedTarget := none }) := by
  constructor
  · exact handleMetrics_validation_and_stripping.2.2.2.2 (fun _ => noEffect)
      "bmc.example.com" (by decide) (by decide) (by decide)
  · exact handleMetrics_validation_and_stripping.1 (fun _ => noEffect)
